import Mathlib

/-!
Verification development for `clearml_serving/serving/preprocess_service.py`:
the engine registry, the dynamic plugin loading contract, the dispatch
pipeline, and the tensor marshalling protocol of the Triton backend adapter.

Each Python construct is embedded shallowly: pure computations become Lean
functions, effectful collaborators (artifact store, HTTP post, gRPC server)
become explicit oracle arguments, exceptions become `Except`.
-/

namespace ClearmlServing

/-- Python `s.strip("/")`: remove leading and trailing `/` characters. -/
def stripSlash (s : String) : String :=
  String.mk (((s.toList.dropWhile (fun c => c = '/')).reverse.dropWhile
    (fun c => c = '/')).reverse)

/-- Configured numpy element type of a `ModelEndpoint` (the value of
`model_endpoint.input_type` / `output_type` as configuration spells it):
sized integer, plain int or uint, bool, or float. -/
inductive NPDtype where
  | uint8
  | int8
  | int64
  | uint64
  | int_
  | uint_
  | bool_
  | float32
  | float64
  | float16
  | int16
  | uint16
  | int32
  | uint32
  deriving DecidableEq, Repr

/-- Runtime numpy scalar classes on the 64-bit Linux target: the possible
values of `np.dtype(x).type` (line 265).  On this target `np.int_` and
`np.int64` are one class, as are `np.uint` and `np.uint64`. -/
inductive NPScalar where
  | bool_
  | int8
  | int16
  | int32
  | int64
  | uint8
  | uint16
  | uint32
  | uint64
  | float16
  | float32
  | float64
  deriving DecidableEq, Repr

/-- Canonicalisation `np.dtype(input_type).type` (line 265): plain int and
plain uint resolve to the 64-bit scalar classes, bool to `np.bool_`, every
sized type to its own scalar class. -/
def npDtypeType : NPDtype → NPScalar
  | .bool_ => .bool_
  | .int8 => .int8
  | .int16 => .int16
  | .int32 => .int32
  | .int64 => .int64
  | .uint8 => .uint8
  | .uint16 => .uint16
  | .uint32 => .uint32
  | .uint64 => .uint64
  | .int_ => .int64
  | .uint_ => .uint64
  | .float16 => .float16
  | .float32 => .float32
  | .float64 => .float64

/-- Names of the typed repeated fields of `InferTensorContents`; the source
selects one of them dynamically by string via `getattr`, embedded here as an
enumerated field selector. -/
inductive ContentField where
  | bool_contents
  | int_contents
  | int64_contents
  | uint_contents
  | uint64_contents
  | fp32_contents
  | fp64_contents
  deriving DecidableEq, Repr

/-- A Python class object usable as a `_content_lookup` dict key: a numpy
scalar class, or the builtin `int` / `bool` classes.  On every numpy this
module can import on (numpy below 1.24, where the deprecated aliases still
exist) `np.int` is the builtin `int` and `np.bool` the builtin `bool`,
distinct from every numpy scalar class. -/
inductive PyClass where
  | np (s : NPScalar)
  | pyInt
  | pyBool
  deriving DecidableEq, Repr

/-- The `_content_lookup` dict literal (lines 190-200) with each key
expression evaluated to its runtime class object, in source order: `np.uint`
is the same class as `np.uint64`, so the sixth entry repeats the fourth key,
and `np.int` / `np.bool` are the builtin classes. -/
def contentLookupEntries : List (PyClass × ContentField) :=
  [(.np .uint8, .uint_contents),
   (.np .int8, .int_contents),
   (.np .int64, .int64_contents),
   (.np .uint64, .uint64_contents),
   (.pyInt, .int_contents),
   (.np .uint64, .uint_contents),
   (.pyBool, .bool_contents),
   (.np .float32, .fp32_contents),
   (.np .float64, .fp64_contents)]

/-- Dict `_content_lookup` as built at runtime (a later duplicate key
overwrites an earlier one, so the `uint64_contents` entry is shadowed by
`uint_contents`), queried at `input_dtype` (line 270) — always a numpy
scalar class, so the builtin-keyed `np.int` / `np.bool` entries can never
match. -/
def contentLookup (s : NPScalar) : Option ContentField :=
  ((contentLookupEntries.foldl (fun d p => p :: d) []).find?
    (fun p => p.1 == PyClass.np s)).map Prod.snd

/-- The configured element types whose runtime lookup succeeds: the table
of the source text minus bool, whose entry keys the unreachable builtin
class. -/
def supportedInputKeys : List NPDtype :=
  [.uint8, .int8, .int64, .uint64, .int_, .uint_, .float32, .float64]

/-- Function `tritonclient.utils.np_to_triton_dtype` restricted to numpy
scalar classes carrying a Triton wire name. -/
def npToTritonDtype : NPScalar → String
  | .bool_ => "BOOL"
  | .int8 => "INT8"
  | .int16 => "INT16"
  | .int32 => "INT32"
  | .int64 => "INT64"
  | .uint8 => "UINT8"
  | .uint16 => "UINT16"
  | .uint32 => "UINT32"
  | .uint64 => "UINT64"
  | .float16 => "FP16"
  | .float32 => "FP32"
  | .float64 => "FP64"

/-- The `ModelEndpoint` configuration fields that `preprocess_service.py`
reads (the class itself lives in `endpoints.py`; its fields are taken from
the uses in this file and the EndpointConfig description of the spec). -/
structure ModelEndpoint where
  serving_url : String
  version : String
  model_id : String
  preprocess_artifact : Option String
  input_name : String
  input_type : NPDtype
  input_size : List Int
  output_name : String
  output_type : NPDtype
  deriving Repr

/-- A numpy ndarray over scalars `α`: a shape and the flat element buffer in
row-major (C) order, which is also what `ndarray.flatten()` returns.  The
array is well-formed when `data.length = shape.prod`. -/
structure NDArray (α : Type) where
  shape : List Nat
  data : List α
  deriving Repr, DecidableEq

/-- Message `proto.InferTensorContents`: one typed repeated field per wire
element type.  The adapter writes the flattened input into exactly one. -/
structure InferTensorContents (α : Type) where
  bool_contents : List α := []
  int_contents : List α := []
  int64_contents : List α := []
  uint_contents : List α := []
  uint64_contents : List α := []
  fp32_contents : List α := []
  fp64_contents : List α := []
  deriving Repr, DecidableEq

/-- All fields of `InferTensorContents`. -/
def contentFields : List ContentField :=
  [.bool_contents, .int_contents, .int64_contents, .uint_contents,
   .uint64_contents, .fp32_contents, .fp64_contents]

/-- Dynamic field read `getattr(input0.contents, field)`. -/
def getContents (c : InferTensorContents α) : ContentField → List α
  | .bool_contents => c.bool_contents
  | .int_contents => c.int_contents
  | .int64_contents => c.int64_contents
  | .uint_contents => c.uint_contents
  | .uint64_contents => c.uint64_contents
  | .fp32_contents => c.fp32_contents
  | .fp64_contents => c.fp64_contents

/-- Statement `input_func[:] = input_data.flatten()`: overwrite the selected
repeated field with the flattened data, leaving every other field empty as
protobuf default-initialises it. -/
def setContents (c : InferTensorContents α) (field : ContentField) (v : List α) :
    InferTensorContents α :=
  match field with
  | .bool_contents => { c with bool_contents := v }
  | .int_contents => { c with int_contents := v }
  | .int64_contents => { c with int64_contents := v }
  | .uint_contents => { c with uint_contents := v }
  | .uint64_contents => { c with uint64_contents := v }
  | .fp32_contents => { c with fp32_contents := v }
  | .fp64_contents => { c with fp64_contents := v }

/-- Input tensor `request.InferInputTensor()` after the adapter populated
it. -/
structure InferInputTensor (α : Type) where
  name : String
  datatype : String
  shape : List Int
  contents : InferTensorContents α
  deriving Repr, DecidableEq

/-- Requested output `request.InferRequestedOutputTensor()`: only the name
is set. -/
structure InferRequestedOutputTensor where
  name : String
  deriving Repr, DecidableEq

/-- Message `service_pb2.ModelInferRequest` as the adapter builds it. -/
structure ModelInferRequest (α : Type) where
  model_name : String
  model_version : String
  inputs : List (InferInputTensor α)
  outputs : List InferRequestedOutputTensor
  deriving Repr, DecidableEq

/-- One output descriptor of a `ModelInferResponse`: its name and the shape
the server declares for it. -/
structure InferOutputTensor where
  name : String
  shape : List Nat
  deriving Repr, DecidableEq

/-- Message `ModelInferResponse`: output descriptors plus the parallel list
of raw buffers, positionally aligned.  A buffer is modelled at element granularity:
`raw_output_contents[i]` is the element list that
`np.frombuffer(response.raw_output_contents[i], dtype=output_type)` yields. -/
structure ModelInferResponse (α : Type) where
  outputs : List InferOutputTensor
  raw_output_contents : List (List α)
  deriving Repr, DecidableEq

/-- Errors the Triton adapter method `process` raises while building a
request; the unsupported-type `ValueError` of line 272 carries the runtime
scalar class `input_dtype`. -/
inductive TritonError where
  | unsupportedType (dtype : NPScalar)
  deriving Repr, DecidableEq

/-- Model of `np.resize(a, shape)` flattened to the total element count: the buffer
is truncated when longer than `newSize`, repeated cyclically when shorter,
and an empty buffer yields zero-fill (numpy fills with zeros there). -/
def npResize (a : List α) (zero : α) (newSize : Nat) : List α :=
  (List.range newSize).map (fun i => a.getD (i % a.length) zero)

/-- Decoding of one response output (lines 293-298): collect the declared
shape, reinterpret the raw buffer as `output_type` elements, and
`np.resize` it to that shape. -/
def decodeOutput (zero : α) (buffer : List α) (shape : List Nat) : NDArray α :=
  { shape := shape, data := npResize buffer zero shape.prod }

/-- Lines 254-283 of `TritonPreprocessRequest.process`: build the
`ModelInferRequest` for input array `a` (already coerced by numpy to the
endpoint element type via `np.array(data, dtype=input_type)`).  Fails with
`unsupportedType` when `_content_lookup` has no entry for the input dtype;
the failure happens before the request is assembled or sent. -/
def buildInferRequest (ep : ModelEndpoint) (a : NDArray α) :
    Except TritonError (ModelInferRequest α) :=
  let modelName := stripSlash (ep.serving_url ++ "/" ++ ep.version)
  let inputDtype := npDtypeType ep.input_type
  match contentLookup inputDtype with
  | none => .error (.unsupportedType inputDtype)
  | some field =>
    .ok {
      model_name := modelName
      model_version := "1"
      inputs := [{
        name := ep.input_name
        datatype := npToTritonDtype inputDtype
        shape := ep.input_size
        contents := setContents {} field a.data }]
      outputs := [{ name := ep.output_name }] }

/-- The value `process` hands to postprocessing: the single reshaped array
when the server returned exactly one output, otherwise the ordered list. -/
inductive ProcessOutput (α : Type) where
  | single (a : NDArray α)
  | multiple (l : List (NDArray α))
  deriving Repr, DecidableEq

/-- Lines 290-302: decode every response output in order (shape as declared
by the server, buffer reinterpreted then `np.resize`d) and unwrap a
single-output response. -/
def decodeResponse (zero : α) (resp : ModelInferResponse α) : ProcessOutput α :=
  let results := (resp.outputs.zip resp.raw_output_contents).map
    (fun p => decodeOutput zero p.2 p.1.shape)
  if resp.outputs.length = 1 then .single (results.getD 0 (decodeOutput zero [] []))
  else .multiple results

/-- The non-bypass path of `TritonPreprocessRequest.process`, with the gRPC
server as an oracle.  Returns the result together with the list of requests
actually handed to `grpc_stub.ModelInfer`, so that "no request is sent" is
expressible. -/
def tritonProcess (ep : ModelEndpoint) (zero : α) (a : NDArray α)
    (server : ModelInferRequest α → ModelInferResponse α) :
    Except TritonError (ProcessOutput α) × List (ModelInferRequest α) :=
  match buildInferRequest ep a with
  | .error e => (.error e, [])
  | .ok req => (.ok (decodeResponse zero (server req)), [req])

/-- Loaded `Preprocess` plugin instance.  The source checks each capability
with `hasattr`, so each of the three stage methods is independently
optional.  `α` is the dynamic value type flowing through the pipeline and
`σ` the type of the statistics-sink callback the stages receive. -/
structure PreprocessPlugin (α σ : Type) where
  preprocessFn : Option (α → Option σ → α) := none
  postprocessFn : Option (α → Option σ → α) := none
  processFn : Option (α → Option σ → α) := none

/-- Attributes task artifacts expose to `__init__`: the task id and the
artifact keys of `task.artifacts`. -/
structure TaskInfo where
  id : String
  artifacts : List String

/-- State of a constructed `BasePreprocessRequest`: the endpoint
configuration, `self._preprocess` and `self._model`. -/
structure DispatcherState (α σ μ : Type) where
  model_endpoint : ModelEndpoint
  plugin : Option (PreprocessPlugin α σ)
  model : Option μ

/-- Method `BasePreprocessRequest.preprocess` (lines 94-96): delegate to the
plugin when it is loaded and has a `preprocess` attribute, otherwise return
the request unchanged. -/
def BasePreprocessRequest.preprocess (d : DispatcherState α σ μ) (request : α)
    (collect_custom_statistics_fn : Option σ) : α :=
  match d.plugin with
  | some p =>
    match p.preprocessFn with
    | some f => f request collect_custom_statistics_fn
    | none => request
  | none => request

/-- Method `BasePreprocessRequest.postprocess` (lines 112-114): delegate to
the plugin when it is loaded and has a `postprocess` attribute, otherwise
return the data unchanged. -/
def BasePreprocessRequest.postprocess (d : DispatcherState α σ μ) (data : α)
    (collect_custom_statistics_fn : Option σ) : α :=
  match d.plugin with
  | some p =>
    match p.postprocessFn with
    | some f => f data collect_custom_statistics_fn
    | none => data
  | none => data

/-- Constructor `BasePreprocessRequest.__init__` (lines 20-45), with the
effectful `_instantiate_custom_preprocess_cls` as an oracle: on success it
yields the loaded plugin and the optional model handle returned by the
plugin `load` callback, on failure the exception message it raised.  A
missing task is modelled as the artifact-not-found error (the source raises
while formatting that message when `task` is `None`). -/
def BasePreprocessRequest.init (ep : ModelEndpoint) (task : Option TaskInfo)
    (instantiate : Except String (PreprocessPlugin α σ × Option μ)) :
    Except String (DispatcherState α σ μ) :=
  match ep.preprocess_artifact with
  | none => .ok { model_endpoint := ep, plugin := none, model := none }
  | some artifact =>
    match task with
    | none => .error ("Error: could not find preprocessing artifact " ++ artifact)
    | some t =>
      if artifact ∈ t.artifacts then
        match instantiate with
        | .error ex =>
          .error ("Error: Failed loading preprocess code for " ++ artifact ++ ": " ++ ex)
        | .ok (p, m) =>
          .ok { model_endpoint := ep, plugin := some p, model := m }
      else
        .error ("Error: could not find preprocessing artifact " ++ artifact ++
          " on Task id=" ++ t.id)

/-- Default `BasePreprocessRequest._default_serving_base_url`. -/
def defaultServingBaseUrl : String := "http://127.0.0.1:8080/serve/"

/-- HTTP response as `requests.post` returns it: `ok` is true exactly for
2xx status codes, `jsonBody` the parsed body `return_value.json()`. -/
structure HTTPResponse (β : Type) where
  ok : Bool
  jsonBody : β

/-- URL construction of `_preprocess_send_request` (lines 178-181).  Python
truthiness makes both a missing and an empty version skip the version
segment; likewise an empty configured base url falls back to the default. -/
def sendRequestUrl (baseServingUrl : Option String) (endpoint : String)
    (version : Option String) : String :=
  let ep := match version with
    | some v =>
      if v.isEmpty then stripSlash endpoint
      else stripSlash endpoint ++ "/" ++ stripSlash v
    | none => stripSlash endpoint
  let base0 := baseServingUrl.getD ""
  let base := stripSlash (if base0.isEmpty then defaultServingBaseUrl else base0)
  base ++ "/" ++ stripSlash ep

/-- Callback `BasePreprocessRequest._preprocess_send_request` (lines
176-185), with `requests.post` as an oracle taking the url and the timeout:
`.error` is a raised requests exception (connection failure, timeout),
`.ok` a completed HTTP response.  There is no try/except around the post
call, so a raised exception propagates (`Except.error`); a completed
non-2xx response yields `none`. -/
def preprocessSendRequest (baseServingUrl : Option String)
    (classTimeout : Option Int) (endpoint : String) (version : Option String)
    (post : String → Option Int → Except ε (HTTPResponse β)) :
    Except ε (Option β) :=
  match post (sendRequestUrl baseServingUrl endpoint version) classTimeout with
  | .error e => .error e
  | .ok r => if !r.ok then .ok none else .ok (some r.jsonBody)

/-- Adapter constructor tags: the classes `register_engine` registers. -/
inductive EngineCls where
  | triton
  | sklearn
  | xgboost
  | lightgbm
  | custom
  deriving DecidableEq, Repr

/-- Dict assignment `cls.__preprocessing_lookup[engine_name] = cls`
performed by the `register_engine` decorator; the most recent binding wins
on lookup, matching dict overwrite. -/
def registerEngine (r : List (String × EngineCls)) (engine_name : String)
    (cls : EngineCls) : List (String × EngineCls) :=
  (engine_name, cls) :: r

/-- Registry built by a sequence of `register_engine` calls starting from
the empty `__preprocessing_lookup`. -/
def buildRegistry (regs : List (String × EngineCls)) : List (String × EngineCls) :=
  regs.foldl (fun r p => registerEngine r p.1 p.2) []

/-- Classmethod `validate_engine_type`: `engine in cls.__preprocessing_lookup`. -/
def validateEngineType (r : List (String × EngineCls)) (engine : String) : Bool :=
  r.any (fun p => p.1 == engine)

/-- Classmethod `get_engine_cls`: `cls.__preprocessing_lookup.get(engine)`. -/
def getEngineCls (r : List (String × EngineCls)) (engine : String) :
    Option EngineCls :=
  (r.find? (fun p => p.1 == engine)).map Prod.snd

/-- The registrations this source file performs, in source order. -/
def sourceRegistrations : List (String × EngineCls) :=
  [("triton", .triton), ("sklearn", .sklearn), ("xgboost", .xgboost),
   ("lightgbm", .lightgbm), ("custom", .custom)]

/-- Arguments of one `Artifact.get_local_copy` call. -/
structure FetchCall where
  extract_archive : Bool
  force_download : Bool
  deriving DecidableEq, Repr

/-- Artifact-store collaborator: `getLocalCopy` is the path a
`get_local_copy` call with the given flags returns (deterministic within
one load), `artifactHash` the hash recorded on the artifact
(`task.artifacts[...].hash`), and `hashOf` the `sha256sum` of a local
path. -/
structure ArtifactStore where
  getLocalCopy : FetchCall → String
  artifactHash : Nat
  hashOf : String → Nat

/-- Result of the fetch phase of `_instantiate_custom_preprocess_cls`:
the path handed to the module loader, the trace of every `get_local_copy`
call made, and whether the hash-changed message was printed. -/
structure FetchResult where
  path : String
  calls : List FetchCall
  loggedChange : Bool
  deriving DecidableEq, Repr

/-- Fetch phase of `_instantiate_custom_preprocess_cls` (lines 48-63):
initial fetch (clearml `get_local_copy` defaults are
`extract_archive=True, force_download=False`), hash comparison against the
recorded artifact hash, then either a forced re-download with extraction
(hash changed, logged) or a cache-served call with extraction — the same
flags as the initial call, hence the same path. -/
def fetchPreprocessArtifact (store : ArtifactStore) : FetchResult :=
  let defaultCall : FetchCall := { extract_archive := true, force_download := false }
  let path := store.getLocalCopy defaultCall
  let file_hash := store.hashOf path
  if file_hash ≠ store.artifactHash then
    { path := store.getLocalCopy { extract_archive := true, force_download := true }
      calls := [defaultCall, { extract_archive := true, force_download := true }]
      loggedChange := true }
  else
    { path := store.getLocalCopy { extract_archive := true, force_download := false }
      calls := [defaultCall, { extract_archive := true, force_download := false }]
      loggedChange := false }

/-- Python attribute state for `_timeout`: the class attribute
`BasePreprocessRequest._timeout` (initialised to `None` on line 18) and the
instance attribute a `self._timeout = ...` assignment creates. -/
structure TimeoutAttrs where
  classAttr : Option Int
  instAttr : Option Int
  deriving DecidableEq, Repr

/-- Python attribute lookup `self._timeout`: the instance attribute when
present, else the class attribute. -/
def TimeoutAttrs.lookup (t : TimeoutAttrs) : Option Int :=
  t.instAttr.orElse (fun _ => t.classAttr)

/-- Derived budget `int(float(GUNICORN_SERVING_TIMEOUT) * 0.8)` of line 33
for a whole-second environment value, in exact arithmetic (binary floating
point agrees at the default 600, giving 480). -/
def derivedBudget (envSeconds : Nat) : Int :=
  ((envSeconds : Int) * 4) / 5

/-- Lines 32-33 of `__init__`: `if self._timeout is None: self._timeout =
int(float(env) * 0.8)`.  The read falls back to the class attribute; the
assignment creates an instance attribute and leaves the class attribute
unchanged. -/
def initTimeoutStep (t : TimeoutAttrs) (derived : Int) : TimeoutAttrs :=
  if t.lookup = none then { t with instAttr := some derived } else t

/-- Timeout handed to `request_post` on line 182: the explicit class
attribute read `BasePreprocessRequest._timeout`. -/
def sendRequestTimeoutArg (t : TimeoutAttrs) : Option Int :=
  t.classAttr

/-- Timeout handed to `grpc_stub.ModelInfer` on line 287: the instance
lookup `self._timeout`. -/
def tritonTimeoutArg (t : TimeoutAttrs) : Option Int :=
  t.lookup

/-! Helper lemmas shared by the claim theorems. -/

theorem npResize_length (a : List α) (zero : α) (n : Nat) :
    (npResize a zero n).length = n := by
  simp [npResize]

theorem npResize_truncate (a : List α) (zero : α) (n : Nat) (h : n ≤ a.length) :
    npResize a zero n = a.take n := by
  apply List.ext_getElem
  · simp [npResize, h]
  · intro i h1 h2
    have hi : i < n := by simpa [npResize] using h1
    have hia : i < a.length := lt_of_lt_of_le hi h
    simp [npResize, Nat.mod_eq_of_lt hia, List.getD_eq_getElem, hia]

theorem npResize_exact (a : List α) (zero : α) :
    npResize a zero a.length = a := by
  rw [npResize_truncate a zero a.length le_rfl, List.take_length]

theorem getContents_setContents_self (c : InferTensorContents α)
    (f : ContentField) (v : List α) :
    getContents (setContents c f v) f = v := by
  cases f <;> rfl

theorem getContents_setContents_ne (c : InferTensorContents α)
    (f g : ContentField) (v : List α) (h : g ≠ f) :
    getContents (setContents c f v) g = getContents c g := by
  cases f <;> cases g <;> simp_all [getContents, setContents]

theorem getContents_default (f : ContentField) :
    getContents ({} : InferTensorContents α) f = [] := by
  cases f <;> rfl

theorem buildInferRequest_eq_ok (ep : ModelEndpoint) (a : NDArray α)
    (field : ContentField)
    (h : contentLookup (npDtypeType ep.input_type) = some field) :
    buildInferRequest ep a = .ok {
      model_name := stripSlash (ep.serving_url ++ "/" ++ ep.version)
      model_version := "1"
      inputs := [{
        name := ep.input_name
        datatype := npToTritonDtype (npDtypeType ep.input_type)
        shape := ep.input_size
        contents := setContents {} field a.data }]
      outputs := [{ name := ep.output_name }] } := by
  simp [buildInferRequest, h]

theorem npResize_getD (a : List α) (zero : α) (n i : Nat) (hi : i < n) :
    (npResize a zero n).getD i zero = a.getD (i % a.length) zero := by
  have hlen : i < (npResize a zero n).length := by
    rw [npResize_length]; exact hi
  rw [List.getD_eq_getElem _ _ hlen]
  simp [npResize]

theorem getEngineCls_isSome_eq (r : List (String × EngineCls)) (engine : String) :
    (getEngineCls r engine).isSome = validateEngineType r engine := by
  induction r with
  | nil => rfl
  | cons p t ih =>
    simp only [getEngineCls, validateEngineType] at *
    cases hpe : (p.1 == engine) with
    | true => simp [List.find?, hpe, List.any_cons]
    | false => simp [List.find?, hpe, List.any_cons, ih]

theorem validate_buildRegistry_aux (regs : List (String × EngineCls))
    (engine : String) :
    ∀ r, validateEngineType (regs.foldl (fun acc p => registerEngine acc p.1 p.2) r)
        engine
      = (validateEngineType r engine || regs.any (fun p => p.1 == engine)) := by
  induction regs with
  | nil => intro r; simp
  | cons p t ih =>
    intro r
    simp only [List.foldl_cons, List.any_cons]
    rw [ih (registerEngine r p.1 p.2)]
    have hstep : validateEngineType (registerEngine r p.1 p.2) engine
        = ((p.1 == engine) || validateEngineType r engine) := by
      simp [validateEngineType, registerEngine, List.any_cons]
    rw [hstep]
    cases (p.1 == engine) <;> cases validateEngineType r engine <;> simp

theorem validate_buildRegistry (regs : List (String × EngineCls))
    (engine : String) :
    validateEngineType (buildRegistry regs) engine =
      regs.any (fun p => p.1 == engine) := by
  have h := validate_buildRegistry_aux regs engine []
  simpa [buildRegistry, validateEngineType] using h

theorem getElem?_zip_eq {l1 : List β} {l2 : List γ} {i : Nat} {x : β} {y : γ}
    (h1 : l1[i]? = some x) (h2 : l2[i]? = some y) :
    (l1.zip l2)[i]? = some (x, y) := by
  induction l1 generalizing l2 i with
  | nil => simp at h1
  | cons a t ih =>
    cases l2 with
    | nil => simp at h2
    | cons b t2 =>
      cases i with
      | zero =>
        simp only [List.getElem?_cons_zero, Option.some.injEq] at h1 h2
        simp [List.zip_cons_cons, h1, h2]
      | succ n =>
        simp only [List.getElem?_cons_succ] at h1 h2
        simpa [List.zip_cons_cons] using ih h1 h2

/-! Concrete data used by the witness instantiations. -/

/-- Example endpoint configured for `float32` input of shape 2 by 3. -/
def epFP32 : ModelEndpoint :=
  { serving_url := "mymodel", version := "2", model_id := "mid",
    preprocess_artifact := none, input_name := "input0",
    input_type := .float32, input_size := [2, 3],
    output_name := "output0", output_type := .float32 }

/-- Example endpoint whose input type has no content-field table entry. -/
def epFP16 : ModelEndpoint := { epFP32 with input_type := .float16 }

/-- Example endpoint configured for bool input. -/
def epBool : ModelEndpoint := { epFP32 with input_type := .bool_ }

/-- Example endpoint configured for uint64 input. -/
def epU64 : ModelEndpoint := { epFP32 with input_type := .uint64 }

/-- Example endpoint configured for plain-int input. -/
def epInt : ModelEndpoint := { epFP32 with input_type := .int_ }

/-- Example 2 by 3 array, flat data in row-major order. -/
def arr23 : NDArray Int := { shape := [2, 3], data := [1, 2, 3, 4, 5, 6] }

/-- Example bool array. -/
def arrBool : NDArray Bool := { shape := [2], data := [true, false] }

/-! Claim theorems. -/

/-- C10: for every output of a remote tensor-server response, the decoded
array has exactly the shape the server declared for it, whatever the raw
element count of the buffer: decoding never fails on a size mismatch since
the buffer is truncated when too long and repeated cyclically (element `i`
reads buffer position `i mod length`; an empty buffer zero-fills) when too
short. -/
theorem decode_output_shape_total {α : Type} (zero : α) (buffer : List α)
    (shape : List Nat) :
    (decodeOutput zero buffer shape).shape = shape ∧
    (decodeOutput zero buffer shape).data.length = shape.prod ∧
    (shape.prod ≤ buffer.length →
      (decodeOutput zero buffer shape).data = buffer.take shape.prod) ∧
    (∀ i, i < shape.prod →
      (decodeOutput zero buffer shape).data.getD i zero =
        buffer.getD (i % buffer.length) zero) := by
  exact ⟨rfl, npResize_length buffer zero shape.prod,
    fun h => npResize_truncate buffer zero shape.prod h,
    fun i hi => npResize_getD buffer zero shape.prod i hi⟩

/-- Instantiation of `decode_output_shape_total`: a 6-element buffer
truncates to the declared 2 by 2 shape, a 3-element buffer wraps around. -/
theorem decode_output_shape_total_witness :
    (decodeOutput (0 : Int) [1, 2, 3, 4, 5, 6] [2, 2]).data = [1, 2, 3, 4] ∧
    (decodeOutput (0 : Int) [1, 2, 3] [2, 2]).data.getD 3 0 = 1 := by
  constructor
  · have h := (decode_output_shape_total (0 : Int) [1, 2, 3, 4, 5, 6] [2, 2]).2.2.1
      (by decide)
    rw [h]; decide
  · have h := (decode_output_shape_total (0 : Int) [1, 2, 3] [2, 2]).2.2.2 3
      (by decide)
    rw [h]; decide

/-- C1 counterexample: bool is listed in the content-field table text, but
the runtime dict keys the builtin `bool` class while the lookup key
`np.dtype(bool).type` is `np.bool_`, so a bool endpoint raises the
unsupported-type error instead of round-tripping — the claim fails at a
concrete bool array. -/
theorem tensor_roundtrip_cex :
    buildInferRequest epBool arrBool =
      .error (.unsupportedType NPScalar.bool_) ∧
    tritonProcess epBool false arrBool
        (fun _ => { outputs := [], raw_output_contents := [] }) =
      (.error (.unsupportedType NPScalar.bool_), []) := by
  exact ⟨rfl, rfl⟩

/-- C1 amended: for every element type of the content-field table except
bool — uint8, int8, int64, uint64, plain int, plain uint, float32,
float64 — encoding a well-formed array as the request tensor (flatten the
row-major data into the contents field the runtime dict selects) and then
decoding a response buffer holding those same elements with the same
declared type and shape yields an array equal to the original in both
values and shape; bool, whose table entry keys the unreachable builtin
class, raises the unsupported-type error instead. -/
theorem tensor_roundtrip {α : Type} (zero : α) (ep : ModelEndpoint)
    (a : NDArray α) (hdt : ep.input_type ∈ supportedInputKeys)
    (hwf : a.data.length = a.shape.prod) :
    ∃ (field : ContentField) (req : ModelInferRequest α),
      contentLookup (npDtypeType ep.input_type) = some field ∧
      buildInferRequest ep a = .ok req ∧
      req.inputs.map (fun t => getContents t.contents field) = [a.data] ∧
      decodeOutput zero a.data a.shape = a := by
  have hdec : decodeOutput zero a.data a.shape = a := by
    cases a with
    | mk s d =>
      simp only at hwf
      simp only [decodeOutput, NDArray.mk.injEq, true_and]
      rw [← hwf, npResize_exact]
  obtain ⟨field, hfield⟩ :
      ∃ f, contentLookup (npDtypeType ep.input_type) = some f := by
    cases h : ep.input_type <;>
      first
        | exact ⟨_, rfl⟩
        | (rw [h] at hdt; exact absurd hdt (by decide))
  exact ⟨field, _, hfield, buildInferRequest_eq_ok ep a field hfield,
    by simp [getContents_setContents_self], hdec⟩

/-- Instantiation of `tensor_roundtrip` at the spec example: a 2 by 3
float32 array round-trips through the fp32 contents field. -/
theorem tensor_roundtrip_witness :
    ∃ (field : ContentField) (req : ModelInferRequest Int),
      contentLookup (npDtypeType epFP32.input_type) = some field ∧
      buildInferRequest epFP32 arr23 = .ok req ∧
      req.inputs.map (fun t => getContents t.contents field) = [arr23.data] ∧
      decodeOutput (0 : Int) arr23.data arr23.shape = arr23 :=
  tensor_roundtrip 0 epFP32 arr23 (by decide) (by decide)

/-- C2 counterexample: with the dict as built at runtime, uint64 data lands
in `uint_contents` (the `uint64_contents` entry is overwritten by the
aliased `np.uint` key) and plain-int data lands in `int64_contents`, not in
the fields the table text names for them — shown by the concrete requests
built. -/
theorem content_lookup_dispatch_cex :
    buildInferRequest epU64 arr23 =
      .ok { model_name := "mymodel/2", model_version := "1",
            inputs := [{ name := "input0", datatype := "UINT64",
                         shape := [2, 3],
                         contents := { uint_contents := [1, 2, 3, 4, 5, 6] } }],
            outputs := [{ name := "output0" }] } ∧
    buildInferRequest epInt arr23 =
      .ok { model_name := "mymodel/2", model_version := "1",
            inputs := [{ name := "input0", datatype := "INT64",
                         shape := [2, 3],
                         contents := { int64_contents := [1, 2, 3, 4, 5, 6] } }],
            outputs := [{ name := "output0" }] } := by
  exact ⟨rfl, rfl⟩

/-- C2 amended: an element type whose runtime scalar class misses the dict
as built at runtime — including bool, whose textual entry keys the builtin
class — makes `process` fail with the unsupported-type error while no
request at all reaches the server; an element type with a runtime entry
gets the flattened data placed in exactly the field that dict yields
(uint8 in uint_contents, int8 in int_contents, int64 and plain int in
int64_contents, uint64 and plain uint in uint_contents, float32 in
fp32_contents, float64 in fp64_contents), every other contents field left
empty. -/
theorem content_lookup_dispatch {α : Type} (zero : α) (ep : ModelEndpoint)
    (a : NDArray α)
    (server : ModelInferRequest α → ModelInferResponse α) :
    (contentLookup (npDtypeType ep.input_type) = none →
      tritonProcess ep zero a server =
        (.error (.unsupportedType (npDtypeType ep.input_type)), [])) ∧
    (∀ field, contentLookup (npDtypeType ep.input_type) = some field →
      ∃ req, buildInferRequest ep a = .ok req ∧
        req.inputs.map (fun t => getContents t.contents field) = [a.data] ∧
        ∀ f ∈ contentFields, f ≠ field →
          req.inputs.map (fun t => getContents t.contents f) = [[]]) := by
  constructor
  · intro hnone
    simp [tritonProcess, buildInferRequest, hnone]
  · intro field hf
    refine ⟨_, buildInferRequest_eq_ok ep a field hf,
      by simp [getContents_setContents_self], ?_⟩
    intro f hmem hne
    simp [getContents_setContents_ne _ _ _ _ hne, getContents_default]

/-- Instantiation of `content_lookup_dispatch`: a float16 endpoint and a
bool endpoint fail with the unsupported-type error and send nothing, a
float32 endpoint fills exactly the fp32 contents field. -/
theorem content_lookup_dispatch_witness :
    tritonProcess epFP16 (0 : Int) arr23
        (fun _ => { outputs := [], raw_output_contents := [] }) =
      (.error (.unsupportedType NPScalar.float16), []) ∧
    tritonProcess epBool true arrBool
        (fun _ => { outputs := [], raw_output_contents := [] }) =
      (.error (.unsupportedType NPScalar.bool_), []) ∧
    ∃ req, buildInferRequest epFP32 arr23 = .ok req ∧
      req.inputs.map (fun t => getContents t.contents ContentField.fp32_contents) =
        [arr23.data] ∧
      ∀ f ∈ contentFields, f ≠ ContentField.fp32_contents →
        req.inputs.map (fun t => getContents t.contents f) = [[]] := by
  refine ⟨?_, ?_, ?_⟩
  · exact (content_lookup_dispatch 0 epFP16 arr23
      (fun _ => { outputs := [], raw_output_contents := [] })).1 rfl
  · exact (content_lookup_dispatch true epBool arrBool
      (fun _ => { outputs := [], raw_output_contents := [] })).1 rfl
  · exact (content_lookup_dispatch 0 epFP32 arr23
      (fun _ => { outputs := [], raw_output_contents := [] })).2 .fp32_contents rfl

/-- C3: a response carrying exactly one output decodes to the bare reshaped
array (not wrapped in a sequence), and a response carrying more than one
output decodes to the list of reshaped arrays in the positional order the
server returned them. -/
theorem response_single_or_list {α : Type} (zero : α)
    (resp : ModelInferResponse α)
    (hpar : resp.raw_output_contents.length = resp.outputs.length) :
    (∀ o b, resp.outputs = [o] → resp.raw_output_contents = [b] →
      decodeResponse zero resp = .single (decodeOutput zero b o.shape)) ∧
    (1 < resp.outputs.length →
      ∃ l, decodeResponse zero resp = .multiple l ∧
        l.length = resp.outputs.length ∧
        ∀ (i : Nat) (o : InferOutputTensor) (b : List α),
          resp.outputs[i]? = some o →
          resp.raw_output_contents[i]? = some b →
          l[i]? = some (decodeOutput zero b o.shape)) := by
  constructor
  · intro o b h1 h2
    simp [decodeResponse, h1, h2]
  · intro hgt
    have hne : ¬ resp.outputs.length = 1 := by omega
    refine ⟨(resp.outputs.zip resp.raw_output_contents).map
        (fun p => decodeOutput zero p.2 p.1.shape), ?_, ?_, ?_⟩
    · simp [decodeResponse, hne]
    · simp [List.length_zip, hpar]
    · intro i o b h1 h2
      rw [List.getElem?_map, getElem?_zip_eq h1 h2]
      rfl

/-- Instantiation of `response_single_or_list` at a one-output and a
two-output response. -/
theorem response_single_or_list_witness :
    decodeResponse (0 : Int)
        { outputs := [{ name := "o", shape := [2] }],
          raw_output_contents := [[5, 6]] } =
      .single (decodeOutput (0 : Int) [5, 6] [2]) ∧
    ∃ l,
      decodeResponse (0 : Int)
          { outputs := [{ name := "oa", shape := [1] }, { name := "ob", shape := [1] }],
            raw_output_contents := [[5], [6]] } = .multiple l ∧
      l.length = 2 ∧
      ∀ (i : Nat) (o : InferOutputTensor) (b : List Int),
        ([{ name := "oa", shape := [1] }, { name := "ob", shape := [1] }] :
          List InferOutputTensor)[i]? = some o →
        ([[5], [6]] : List (List Int))[i]? = some b →
        l[i]? = some (decodeOutput (0 : Int) b o.shape) := by
  constructor
  · exact (response_single_or_list (0 : Int)
      { outputs := [{ name := "o", shape := [2] }],
        raw_output_contents := [[5, 6]] } (by decide)).1 _ _ rfl rfl
  · exact (response_single_or_list (0 : Int)
      { outputs := [{ name := "oa", shape := [1] }, { name := "ob", shape := [1] }],
        raw_output_contents := [[5], [6]] } (by decide)).2 (by decide)

/-- Example artifact store whose cached copy still matches the recorded
hash. -/
def storeMatch : ArtifactStore :=
  { getLocalCopy := fun c => if c.force_download then "fresh" else "cached",
    artifactHash := 7, hashOf := fun _ => 7 }

/-- Example artifact store whose cached copy no longer matches the recorded
hash. -/
def storeMismatch : ArtifactStore :=
  { getLocalCopy := fun c => if c.force_download then "fresh" else "cached",
    artifactHash := 7, hashOf := fun p => if p = "cached" then 9 else 7 }

/-- C4: on plugin load, a matching content hash triggers no forced
re-download — the path used equals the one the initial cache-served call
returned, since the match branch repeats that call with the same flags —
while a hash mismatch triggers exactly one forced re-download (with archive
extraction) and logs the change. -/
theorem fetch_hash_check (store : ArtifactStore) :
    (store.hashOf (store.getLocalCopy { extract_archive := true, force_download := false }) =
        store.artifactHash →
      (fetchPreprocessArtifact store).path =
        store.getLocalCopy { extract_archive := true, force_download := false } ∧
      (∀ c ∈ (fetchPreprocessArtifact store).calls, c.force_download = false) ∧
      (fetchPreprocessArtifact store).loggedChange = false) ∧
    (store.hashOf (store.getLocalCopy { extract_archive := true, force_download := false }) ≠
        store.artifactHash →
      ((fetchPreprocessArtifact store).calls.filter
        (fun c => c.force_download)).length = 1 ∧
      (fetchPreprocessArtifact store).loggedChange = true ∧
      (fetchPreprocessArtifact store).path =
        store.getLocalCopy { extract_archive := true, force_download := true }) := by
  constructor
  · intro h
    simp [fetchPreprocessArtifact, h, List.filter]
  · intro h
    simp [fetchPreprocessArtifact, h, List.filter]

/-- Instantiation of `fetch_hash_check` at a matching and at a mismatching
store. -/
theorem fetch_hash_check_witness :
    (fetchPreprocessArtifact storeMatch).path =
      storeMatch.getLocalCopy { extract_archive := true, force_download := false } ∧
    (∀ c ∈ (fetchPreprocessArtifact storeMatch).calls, c.force_download = false) ∧
    ((fetchPreprocessArtifact storeMismatch).calls.filter
      (fun c => c.force_download)).length = 1 ∧
    (fetchPreprocessArtifact storeMismatch).loggedChange = true := by
  exact ⟨((fetch_hash_check storeMatch).1 rfl).1,
    ((fetch_hash_check storeMatch).1 rfl).2.1,
    ((fetch_hash_check storeMismatch).2 (by decide)).1,
    ((fetch_hash_check storeMismatch).2 (by decide)).2.1⟩

/-- C5: when no plugin is loaded, or the loaded plugin lacks the
corresponding capability, `preprocess` returns the request unchanged and
`postprocess` returns the data unchanged. -/
theorem pipeline_stage_identity {α σ μ : Type} (d : DispatcherState α σ μ)
    (request data : α) (sink : Option σ) :
    ((∀ p, d.plugin = some p → p.preprocessFn = none) →
      BasePreprocessRequest.preprocess d request sink = request) ∧
    ((∀ p, d.plugin = some p → p.postprocessFn = none) →
      BasePreprocessRequest.postprocess d data sink = data) := by
  constructor
  · intro h
    unfold BasePreprocessRequest.preprocess
    cases hp : d.plugin with
    | none => rfl
    | some p => simp [h p hp]
  · intro h
    unfold BasePreprocessRequest.postprocess
    cases hp : d.plugin with
    | none => rfl
    | some p => simp [h p hp]

/-- Instantiation of `pipeline_stage_identity` at a dispatcher with no
plugin. -/
theorem pipeline_stage_identity_witness :
    BasePreprocessRequest.preprocess
      ({ model_endpoint := epFP32, plugin := none, model := none } :
        DispatcherState Nat Unit Unit) 5 none = 5 ∧
    BasePreprocessRequest.postprocess
      ({ model_endpoint := epFP32, plugin := none, model := none } :
        DispatcherState Nat Unit Unit) 7 none = 7 := by
  constructor
  · exact (pipeline_stage_identity _ 5 7 none).1 (fun p hp => by cases hp)
  · exact (pipeline_stage_identity _ 5 7 none).2 (fun p hp => by cases hp)

/-- C6 counterexample: a network error raised by `requests.post` is not
swallowed into `None` — `_preprocess_send_request` has no try/except, so
the exception propagates to the calling plugin code. -/
theorem send_request_error_propagates :
    preprocessSendRequest (ε := String) (β := Nat) none none "ep" none
        (fun _ _ => .error "ConnectionError") = .error "ConnectionError" ∧
    preprocessSendRequest (ε := String) (β := Nat) none none "ep" none
        (fun _ _ => .error "ConnectionError") ≠ .ok none := by
  constructor
  · rfl
  · exact fun h => Except.noConfusion h

/-- C6 amended: a completed non-2xx response yields `None` (and a 2xx
response yields the parsed body), but a network error raised while issuing
the POST propagates out of the callback as an exception rather than being
turned into `None`. -/
theorem send_request_non2xx_none {ε β : Type} (baseServingUrl : Option String)
    (classTimeout : Option Int) (endpoint : String) (version : Option String)
    (post : String → Option Int → Except ε (HTTPResponse β)) :
    (∀ e, post (sendRequestUrl baseServingUrl endpoint version) classTimeout =
        .error e →
      preprocessSendRequest baseServingUrl classTimeout endpoint version post =
        .error e) ∧
    (∀ r, post (sendRequestUrl baseServingUrl endpoint version) classTimeout =
        .ok r →
      preprocessSendRequest baseServingUrl classTimeout endpoint version post =
        (if r.ok then .ok (some r.jsonBody) else .ok none)) := by
  constructor
  · intro e he
    simp [preprocessSendRequest, he]
  · intro r hr
    simp only [preprocessSendRequest, hr]
    cases hok : r.ok <;> simp [hok]

/-- Instantiation of `send_request_non2xx_none`: a completed 404 yields
`none`, a completed 200 yields the body. -/
theorem send_request_non2xx_none_witness :
    preprocessSendRequest (ε := String) none none "ep" none
        (fun _ _ => .ok ({ ok := false, jsonBody := (0 : Nat) } : HTTPResponse Nat)) =
      .ok none ∧
    preprocessSendRequest (ε := String) none none "ep" none
        (fun _ _ => .ok ({ ok := true, jsonBody := (3 : Nat) } : HTTPResponse Nat)) =
      .ok (some 3) := by
  constructor
  · have h := (send_request_non2xx_none (ε := String) none none "ep" none
      (fun _ _ => .ok ({ ok := false, jsonBody := (0 : Nat) } : HTTPResponse Nat))).2
      { ok := false, jsonBody := (0 : Nat) } rfl
    simpa using h
  · have h := (send_request_non2xx_none (ε := String) none none "ep" none
      (fun _ _ => .ok ({ ok := true, jsonBody := (3 : Nat) } : HTTPResponse Nat))).2
      { ok := true, jsonBody := (3 : Nat) } rfl
    simpa using h

/-- C7: when the configured preprocessing artifact exists on the task and
the loading step raises, the constructor re-raises a single configuration
error naming the artifact and the underlying cause, and no dispatcher state
is produced. -/
theorem init_wraps_load_failure {α σ μ : Type} (ep : ModelEndpoint)
    (t : TaskInfo) (artifact cause : String)
    (hart : ep.preprocess_artifact = some artifact)
    (hmem : artifact ∈ t.artifacts) :
    BasePreprocessRequest.init (α := α) (σ := σ) (μ := μ) ep (some t)
        (.error cause) =
      .error ("Error: Failed loading preprocess code for " ++ artifact ++
        ": " ++ cause) ∧
    ∀ s, BasePreprocessRequest.init (α := α) (σ := σ) (μ := μ) ep (some t)
        (.error cause) ≠ .ok s := by
  have h : BasePreprocessRequest.init (α := α) (σ := σ) (μ := μ) ep (some t)
      (.error cause) =
      .error ("Error: Failed loading preprocess code for " ++ artifact ++
        ": " ++ cause) := by
    unfold BasePreprocessRequest.init
    rw [hart]
    simp [hmem]
  refine ⟨h, fun s hs => ?_⟩
  rw [h] at hs
  exact Except.noConfusion hs

/-- Instantiation of `init_wraps_load_failure` at a concrete endpoint, task
and load failure. -/
theorem init_wraps_load_failure_witness :
    BasePreprocessRequest.init (α := Nat) (σ := Unit) (μ := Unit)
        { epFP32 with preprocess_artifact := some "code.py" }
        (some { id := "task1", artifacts := ["code.py"] })
        (.error "SyntaxError") =
      .error ("Error: Failed loading preprocess code for " ++ "code.py" ++
        ": " ++ "SyntaxError") :=
  (init_wraps_load_failure _ _ "code.py" "SyntaxError" rfl (by decide)).1

/-- C8 at the failing input: starting from the source initial state
(class attribute `_timeout = None`, fresh instance) with the default
600-second serving timeout, `__init__` stores the derived 480 in an
instance attribute only, so the Triton call reads 480 while
`_preprocess_send_request` reads the class attribute, which is still
`None`: the two outbound calls do not share one derived budget, and the
class attribute staying `None` makes every construction re-derive it. -/
theorem timeout_budget_not_shared :
    tritonTimeoutArg (initTimeoutStep { classAttr := none, instAttr := none }
      (derivedBudget 600)) = some 480 ∧
    sendRequestTimeoutArg (initTimeoutStep { classAttr := none, instAttr := none }
      (derivedBudget 600)) = none ∧
    (initTimeoutStep { classAttr := none, instAttr := none }
      (derivedBudget 600)).classAttr = none := by
  decide

/-- C9: in the registry built by any sequence of `register_engine` calls,
`get_engine_cls` returns a constructor exactly when `validate_engine_type`
reports the engine supported, and a never-registered name is unsupported
and resolves to nothing. -/
theorem registry_resolve_iff (regs : List (String × EngineCls))
    (engine : String) :
    ((getEngineCls (buildRegistry regs) engine).isSome = true ↔
      validateEngineType (buildRegistry regs) engine = true) ∧
    (engine ∉ regs.map Prod.fst →
      validateEngineType (buildRegistry regs) engine = false ∧
      getEngineCls (buildRegistry regs) engine = none) := by
  have hsome := getEngineCls_isSome_eq (buildRegistry regs) engine
  constructor
  · rw [hsome]
  · intro hmem
    have hv : validateEngineType (buildRegistry regs) engine = false := by
      rw [validate_buildRegistry]
      rw [List.any_eq_false]
      intro p hp
      simp only [beq_iff_eq]
      intro hpe
      exact hmem (hpe ▸ List.mem_map_of_mem Prod.fst hp)
    refine ⟨hv, ?_⟩
    have hfalse := hsome.trans hv
    cases hg : getEngineCls (buildRegistry regs) engine with
    | none => rfl
    | some c =>
      rw [hg] at hfalse
      simp at hfalse

/-- Instantiation of `registry_resolve_iff` at the registrations this file
performs, with a registered and an unregistered engine name. -/
theorem registry_resolve_iff_witness :
    ((getEngineCls (buildRegistry sourceRegistrations) "triton").isSome = true ↔
      validateEngineType (buildRegistry sourceRegistrations) "triton" = true) ∧
    (validateEngineType (buildRegistry sourceRegistrations) "tensorflow" = false ∧
      getEngineCls (buildRegistry sourceRegistrations) "tensorflow" = none) :=
  ⟨(registry_resolve_iff sourceRegistrations "triton").1,
    (registry_resolve_iff sourceRegistrations "tensorflow").2 (by decide)⟩

end ClearmlServing
